import Mathlib

/-!
# CloserCore battle-card pipeline: shallow embedding and verification

Shallow embedding of `src/bt_card.py` and `src/func.py` (the four pipeline
stages research/pricing/news/writer, the URL probe loops, the markdown-fence
stripping, the retrieval gate, and the raw-data sidecar), with theorems
settling the frozen claims about the pipeline.

External collaborators (web search, HTTP fetch, the text splitter, the FAISS
top-k selection, the LLM, `json.loads`, file writes, `urllib.parse.urljoin`)
are modelled as explicit oracle parameters gathered in the `Oracles`
structure: each node is a function of the oracles and the input state,
faithful to the Python control flow.  Python values that come out of
`json.loads` are modelled by the inductive `Json` type (numbers as integers;
no claim involves float values).  Prompt construction is kept abstract
(`writer_prompt`, and the extraction LLM oracles are applied to the retrieved
context directly): no claim depends on the literal prompt wording, only on
which calls are made and how their results flow.
-/

/-!
## Python string primitives

Python strings operate on code points; these helpers work on `String.data`
(the code-point list) so that every string computation reduces in the
kernel.
-/

/-- Python `s.startswith(pre)`. -/
def pyStartswith (s pre : String) : Bool := pre.data.isPrefixOf s.data

/-- Python `s.strip()`: remove leading and trailing whitespace. -/
def pyStrip (s : String) : String :=
  String.mk (((s.data.dropWhile Char.isWhitespace).reverse.dropWhile
    Char.isWhitespace).reverse)

/-- Python `s.split("\n")`. -/
def splitNlAux : List Char → List Char → List String
  | [], acc => [String.mk acc.reverse]
  | c :: cs, acc =>
    if c = '\n' then String.mk acc.reverse :: splitNlAux cs []
    else splitNlAux cs (c :: acc)

/-- Python `s.split("\n")`: split on newline, keeping empty pieces. -/
def pySplitNl (s : String) : List String := splitNlAux s.data []

/-- Python `sep.join(xs)`. -/
def pyJoin (sep : String) (xs : List String) : String :=
  String.mk (List.intercalate sep.data (xs.map String.data))

/-- Python `s[n:]` (slice by code points). -/
def pyDrop (s : String) (n : Nat) : String := String.mk (s.data.drop n)

/-- Python `len(s)` (code points). -/
def pyLen (s : String) : Nat := s.data.length

/-- Python `s.rstrip('/')`. -/
def pyRstripSlash (s : String) : String :=
  String.mk ((s.data.reverse.dropWhile (· = '/')).reverse)

/-- Python values produced by `json.loads`: null, booleans, numbers
(restricted to integers), strings, lists and dicts. -/
inductive Json where
  | null : Json
  | bool (b : Bool) : Json
  | num (n : Int) : Json
  | str (s : String) : Json
  | arr (elts : List Json) : Json
  | obj (fields : List (String × Json)) : Json

/-- Python truthiness of a JSON-parsed value (`if value:`). -/
def Json.truthy : Json → Bool
  | .null => false
  | .bool b => b
  | .num n => n != 0
  | .str s => s != ""
  | .arr elts => !elts.isEmpty
  | .obj fields => !fields.isEmpty

/-- Python `str(value)` for a JSON-parsed value, as interpolated by an
f-string.  Containers are rendered only schematically: they appear solely
inside generated report text, whose wording no claim inspects. -/
def Json.pyStr : Json → String
  | .null => "None"
  | .bool true => "True"
  | .bool false => "False"
  | .num n => toString n
  | .str s => s
  | .arr _ => "[...]"
  | .obj _ => "\x7b...\x7d"

/-- Python `d.get(key, default)` on a parsed JSON dict (field list). -/
def jsonGetD (fields : List (String × Json)) (key : String) (d : Json) : Json :=
  match fields.lookup key with
  | some v => v
  | none => d

/-- `d.get(key, default)` where the looked-up value is used as a string.
Model restriction: a non-string value found under the key yields the default
(Python would carry the raw dynamic value into the string-typed state field;
no claim distinguishes the two behaviours). -/
def getStrD (fields : List (String × Json)) (key : String) (d : String) : String :=
  match jsonGetD fields key (.str d) with
  | .str s => s
  | _ => d

/-- `d.get(key, [])` where the looked-up value is used as a list of JSON
values.  Model restriction: a non-list value yields `[]`. -/
def getArrD (fields : List (String × Json)) (key : String) : List Json :=
  match jsonGetD fields key (.arr []) with
  | .arr elts => elts
  | _ => []

/-- The markdown code-fence cleaning applied to each LLM response before
`json.loads` (bt_card.py lines 65-69, repeated at 172-176 and 286-290):

    if content.startswith("```"):
        lines = content.split("\n")
        content = "\n".join(lines[1:-1]) if len(lines) > 2 else content
        if content.startswith("json"):
            content = content[4:].strip()
-/
def strip_fence (content : String) : String :=
  if pyStartswith content "```" then
    let lines := pySplitNl content
    let content1 :=
      if lines.length > 2 then pyJoin "\n" (lines.drop 1).dropLast
      else content
    if pyStartswith content1 "json" then pyStrip (pyDrop content1 4)
    else content1
  else content

/-- The shared pipeline state (`AgentState` TypedDict, bt_card.py lines
24-33).  `messages` carries opaque chat messages (never written by any
stage); `competitors`, `pricing_info` and `news_headlines` hold raw
JSON-parsed values exactly as stored by the stages (no schema validation in
the source: research's `dat_js.get("competitors", [])` can put non-string
entries into `competitors`). -/
structure AgentState where
  messages : List String
  company_name : String
  home_url : String
  description : String
  competitors : List Json
  pricing_info : List Json
  news_headlines : List Json
  loop_count : Nat
  final_report : String

/-- A partial state update as returned by a LangGraph node: only the keys
present in the returned dict are written; `none` means the key is absent. -/
structure StateUpdate where
  home_url : Option String := none
  description : Option String := none
  competitors : Option (List Json) := none
  pricing_info : Option (List Json) := none
  news_headlines : Option (List Json) := none
  loop_count : Option Nat := none
  final_report : Option String := none

/-- Names of the writable state fields (for write-set reasoning). -/
inductive StateField where
  | home_url | description | competitors | pricing_info
  | news_headlines | loop_count | final_report
deriving DecidableEq

/-- Does the update write the given field (is the key present in the
returned dict)? -/
def StateUpdate.writesB (u : StateUpdate) : StateField → Bool
  | .home_url => u.home_url.isSome
  | .description => u.description.isSome
  | .competitors => u.competitors.isSome
  | .pricing_info => u.pricing_info.isSome
  | .news_headlines => u.news_headlines.isSome
  | .loop_count => u.loop_count.isSome
  | .final_report => u.final_report.isSome

/-- LangGraph merge of a node's partial update into the running state
(non-`messages` channels overwrite; no node ever returns `messages`). -/
def AgentState.merge (s : AgentState) (u : StateUpdate) : AgentState :=
  { s with
    home_url := u.home_url.getD s.home_url
    description := u.description.getD s.description
    competitors := u.competitors.getD s.competitors
    pricing_info := u.pricing_info.getD s.pricing_info
    news_headlines := u.news_headlines.getD s.news_headlines
    loop_count := u.loop_count.getD s.loop_count
    final_report := u.final_report.getD s.final_report }

/-- The initial state built by `run_battle_card_generator`
(bt_card.py lines 471-481). -/
def initial_state (company_name : String) : AgentState :=
  { messages := []
    company_name := company_name
    home_url := ""
    description := ""
    competitors := []
    pricing_info := []
    news_headlines := []
    loop_count := 0
    final_report := "" }

/-- The external collaborators of the pipeline, as oracle parameters.
`scrape` is `scrape_website` (func.py: total, returns either page text or an
error-marker string starting with `"Error"`, never raises); `httpGet` is
`requests.get(url).status_code` (may raise, hence `Except`); `split` is the
`RecursiveCharacterTextSplitter` chunking; `select3`/`select5` are the FAISS
top-k selections of `get_price_chunks` for the pricing query (k=3) and the
news query (k=5); the `llm*` oracles are the `model.invoke` calls, applied to
the varying part of each prompt (the search results for research, the
combined retrieved chunks for pricing/news, the built prompt for the writer);
`jsonLoads` is `json.loads` (error = `JSONDecodeError`); `fileWriteMd` and
`fileWriteJson` are the two `open(...).write` effects in the writer;
`urljoin` is `urllib.parse.urljoin`. -/
structure Oracles where
  searchInvoke : Except String String
  urljoin : String → String → String
  scrape : String → String
  httpGet : String → Except String Nat
  split : String → List String
  select3 : List String → List String
  select5 : List String → List String
  llmResearch : String → Except String String
  llmPricing : String → Except String String
  llmNews : String → Except String String
  llmWriter : String → Except String String
  jsonLoads : String → Except String Json
  fileWriteMd : Except String Unit
  fileWriteJson : Except String Unit

/-- `retriever_text` (func.py lines 31-43): returns `None, None` when the
text is falsy or an error marker, otherwise the splitter's chunks (the
embeddings object carries no data relevant to control flow and is elided
from the `some` payload). -/
def retriever_text (split : String → List String) (text : String) :
    Option (List String) :=
  if text = "" ∨ pyStartswith text "Error" = true then none
  else some (split text)

/-- Network-call trace of one `pricing_node` run: which URLs were scraped,
whether `retriever_text` ran, whether the LLM was invoked. -/
structure PricingTrace where
  scrapes : List String := []
  retrieverCalled : Bool := false
  llmCalled : Bool := false

/-- Network-call trace of one `news_node` run: which URLs got the
preliminary `requests.get` status probe, which were scraped, whether
`retriever_text` ran, whether the LLM was invoked. -/
structure NewsTrace where
  httpGets : List String := []
  scrapes : List String := []
  retrieverCalled : Bool := false
  llmCalled : Bool := false

/-- The pricing probe loop (bt_card.py lines 112-122): `text` is overwritten
by every scrape; the loop breaks at the first URL whose text is truthy and
longer than 100 characters.  First component: the final value of `text`
(accumulator starts at `None`); second: `successful_url`; third: the list of
URLs actually fetched. -/
def pricing_probe (scrape : String → String) :
    Option String → List String → Option String × Option String × List String
  | t, [] => (t, none, [])
  | _t, url :: rest =>
    let s := scrape url
    if s ≠ "" ∧ pyLen s > 100 then (some s, some url, [url])
    else
      let (t', su, log) := pricing_probe scrape (some s) rest
      (t', su, url :: log)

/-- The news probe loop (bt_card.py lines 211-224): each URL first gets a
`requests.get` status check (an exception skips the URL); only a 200 status
triggers the scrape, whose result overwrites `text`; the loop breaks at the
first URL whose scraped text is truthy and longer than 100 characters.
Components: final `text`, `successful_url`, status-checked URLs, scraped
URLs. -/
def news_probe (httpGet : String → Except String Nat)
    (scrape : String → String) :
    Option String → List String →
      Option String × Option String × List String × List String
  | t, [] => (t, none, [], [])
  | t, url :: rest =>
    match httpGet url with
    | .error _ =>
      let (t', su, gets, scrapes) := news_probe httpGet scrape t rest
      (t', su, url :: gets, scrapes)
    | .ok code =>
      if code = 200 then
        let s := scrape url
        if s ≠ "" ∧ pyLen s > 100 then (some s, some url, [url], [url])
        else
          let (t', su, gets, scrapes) := news_probe httpGet scrape (some s) rest
          (t', su, url :: gets, url :: scrapes)
      else
        let (t', su, gets, scrapes) := news_probe httpGet scrape t rest
        (t', su, url :: gets, scrapes)

/-- The candidate pricing-page URLs (bt_card.py lines 103-107). -/
def pricing_candidates (o : Oracles) (home_url : String) : List String :=
  let base := pyRstripSlash home_url ++ "/"
  [o.urljoin base "pricing", o.urljoin base "plans", o.urljoin base "price"]

/-- The candidate blog/news-page URLs (bt_card.py lines 201-206). -/
def news_candidates (o : Oracles) (home_url : String) : List String :=
  let base := pyRstripSlash home_url ++ "/"
  [o.urljoin base "blog", o.urljoin base "news", o.urljoin base "press",
   o.urljoin base "updates"]

/-- Body of `pricing_node` (bt_card.py lines 93-189): computes the value
returned under the `pricing_info` key (the only key the node ever returns),
together with the network trace. -/
def pricing_core (o : Oracles) (state : AgentState) :
    List Json × PricingTrace :=
  let pricing_info := state.pricing_info
  let home_url := state.home_url
  if home_url = "" ∨ home_url = "Not found" then (pricing_info, {})
  else
    let (text?, _su, log) :=
      pricing_probe o.scrape none (pricing_candidates o home_url)
    match text? with
    | none => (pricing_info, { scrapes := log })
    | some text =>
      if text = "" then (pricing_info, { scrapes := log })
      else
        match retriever_text o.split text with
        | none => (pricing_info, { scrapes := log, retrieverCalled := true })
        | some chunks =>
          let combined := pyJoin "\n\n---\n\n" (o.select3 chunks)
          match o.llmPricing combined with
          | .error _ =>
            (pricing_info,
             { scrapes := log, retrieverCalled := true, llmCalled := true })
          | .ok res =>
            let content := strip_fence (pyStrip res)
            match o.jsonLoads content with
            | .error _ =>
              (pricing_info,
               { scrapes := log, retrieverCalled := true, llmCalled := true })
            | .ok res_json =>
              (pricing_info ++ [res_json],
               { scrapes := log, retrieverCalled := true, llmCalled := true })

/-- `pricing_node`: every return path of the Python function returns the
dict `{"pricing_info": ...}` and nothing else. -/
def pricing_node (o : Oracles) (state : AgentState) :
    StateUpdate × PricingTrace :=
  let (pi, tr) := pricing_core o state
  ({ pricing_info := some pi }, tr)

/-- Body of `news_node` (bt_card.py lines 191-304): computes the value
returned under the `news_headlines` key (the only key the node ever
returns), together with the network trace.  A non-dict parse result makes
`headlines_data.get` raise `AttributeError`, caught by the outer handler
which returns `[]`. -/
def news_core (o : Oracles) (state : AgentState) : List Json × NewsTrace :=
  let home_url := state.home_url
  if home_url = "" ∨ home_url = "Not found" then ([], {})
  else
    let (text?, _su, gets, scrapes) :=
      news_probe o.httpGet o.scrape none (news_candidates o home_url)
    let tr : NewsTrace := { httpGets := gets, scrapes := scrapes }
    match text? with
    | none => ([], tr)
    | some text =>
      if text = "" then ([], tr)
      else
        match retriever_text o.split text with
        | none => ([], { tr with retrieverCalled := true })
        | some chunks =>
          let combined := pyJoin "\n\n---\n\n" (o.select5 chunks)
          let tr := { tr with retrieverCalled := true, llmCalled := true }
          match o.llmNews combined with
          | .error _ => ([], tr)
          | .ok response =>
            let content := strip_fence (pyStrip response)
            match o.jsonLoads content with
            | .error _ => ([], tr)
            | .ok headlines_data =>
              match headlines_data with
              | .obj fields => (getArrD fields "headlines", tr)
              | _ => ([], tr)

/-- `news_node`: every return path of the Python function returns the dict
`{"news_headlines": ...}` and nothing else. -/
def news_node (o : Oracles) (state : AgentState) : StateUpdate × NewsTrace :=
  let (nh, tr) := news_core o state
  ({ news_headlines := some nh }, tr)

/-- The try-block of `research_node` (bt_card.py lines 46-75): search, LLM
call, fence stripping, `json.loads`, then the three `dat_js.get` lookups.
A non-dict parse result makes `dat_js.get` raise `AttributeError`, modelled
as an error.  Any error lands in one of the two except-handlers. -/
def researchExtract (o : Oracles) : Except String (String × String × List Json) := do
  let search_results ← o.searchInvoke
  let response ← o.llmResearch search_results
  let content := strip_fence (pyStrip response)
  let dat_js ← o.jsonLoads content
  match dat_js with
  | .obj fields =>
    pure (getStrD fields "website_url" "Not found",
          getStrD fields "description" "Not available",
          getArrD fields "competitors")
  | _ => .error "AttributeError"

/-- The `(website_url, description, competitors)` values after the
try/except of `research_node` (bt_card.py lines 42-84): the defaults
`("Not found", "Not available", [])` survive any exception. -/
def researchTriple (o : Oracles) : String × String × List Json :=
  match researchExtract o with
  | .ok r => r
  | .error _ => ("Not found", "Not available", ([] : List Json))

/-- The dict returned by `research_node` (bt_card.py lines 86-91), built
from the extracted triple (or the defaults, on exception) and the
incremented loop counter. -/
def research_node (o : Oracles) (state : AgentState) : StateUpdate :=
  { home_url := some (researchTriple o).1
    description := some (researchTriple o).2.1
    competitors := some (researchTriple o).2.2
    loop_count := some (state.loop_count + 1) }

/-- Competitors formatting in `writer_node` (bt_card.py line 325,
evaluated before the try-block): `", ".join(competitors) if competitors
else "Unknown"`.  `str.join` raises `TypeError` unless every entry is a
string, and that exception propagates out of the stage. -/
def format_competitors (competitors : List Json) : Except String String :=
  if competitors.isEmpty then .ok "Unknown"
  else
    match competitors.mapM
        (fun c => match c with | Json.str s => some s | _ => none) with
    | some strs => .ok (pyJoin ", " strs)
    | none => .error "TypeError"

/-- Pricing formatting in `writer_node` (bt_card.py lines 328-347).  Runs
BEFORE the try-block: `pricing_data.get` raises `AttributeError` when the
first `pricing_info` entry is not a dict, and `starter_plan.get` raises when
`starter_plan` is truthy but not a dict; those exceptions propagate out of
the stage. -/
def format_pricing (pricing_info : List Json) : Except String String :=
  match pricing_info with
  | [] => .ok "Unknown"
  | pricing_data :: _ =>
    match pricing_data with
    | .obj fields =>
      let free_tier :=
        if (jsonGetD fields "free_tier" (.bool false)).truthy then "✅ Yes"
        else "❌ No"
      let starter_plan := jsonGetD fields "starter_plan" (.obj [])
      let starterRes : Except String String :=
        if starter_plan.truthy then
          match starter_plan with
          | .obj sf =>
            let name := jsonGetD sf "name" .null
            let price := jsonGetD sf "price" .null
            if name.truthy ∧ price.truthy then
              .ok (name.pyStr ++ ": " ++ price.pyStr)
            else .ok "Unknown"
          | _ => .error "AttributeError"
        else .ok "Unknown"
      match starterRes with
      | .error e => .error e
      | .ok starter_text =>
        let enterprise :=
          if (jsonGetD fields "enterprise_plan" (.bool false)).truthy then
            "✅ Available"
          else "❌ Not Available"
        .ok ("\n- **Free Tier:** " ++ free_tier ++ "\n- **Starter Plan:** " ++
             starter_text ++ "\n- **Enterprise Plan:** " ++ enterprise ++ "\n")
    | _ => .error "AttributeError"

/-- The enumerated headline list comprehension in `writer_node`
(bt_card.py lines 351-352).  Also runs before the try-block:
`headline.get` raises `AttributeError` on a non-dict entry. -/
def numberHeadlines : Nat → List Json → Except String (List String)
  | _, [] => .ok []
  | i, headline :: rest =>
    match headline with
    | .obj fields =>
      match numberHeadlines (i + 1) rest with
      | .error e => .error e
      | .ok lines =>
        .ok ((toString (i + 1) ++ ". " ++
              (jsonGetD fields "title" (.str "N/A")).pyStr) :: lines)
    | _ => .error "AttributeError"

/-- News formatting in `writer_node` (bt_card.py lines 350-354): the
enumerated comprehension, or the fallback string on an empty list. -/
def format_news (news_headlines : List Json) : Except String String :=
  if news_headlines.isEmpty then .ok "No recent news available"
  else
    match numberHeadlines 0 news_headlines with
    | .error e => .error e
    | .ok lines => .ok (pyJoin "\n" lines)

/-- The writer prompt (bt_card.py lines 357-403), abstracted to the
concatenation of its data slots: no claim depends on the surrounding prompt
wording, only on the prompt being a function of these six values. -/
def writer_prompt (company_name home_url description competitors_text
    pricing_text news_text : String) : String :=
  pyJoin "\n" [company_name, home_url, description,
    competitors_text, pricing_text, news_text]

/-- The raw-data sidecar dict (bt_card.py lines 421-428), dumped to
`{name}_data.json`.  `json.dump`/`json.loads` of the Python standard library
are modelled at the JSON-value level (the pair is an external collaborator
and is inverse on JSON-representable values), so the persisted file content
IS this value. -/
def raw_data (state : AgentState) : Json :=
  .obj [("company_name", .str state.company_name),
        ("website", .str state.home_url),
        ("description", .str state.description),
        ("competitors", .arr state.competitors),
        ("pricing_info", .arr state.pricing_info),
        ("news_headlines", .arr state.news_headlines)]

/-- The try-block of `writer_node` (bt_card.py lines 407-434): LLM call,
markdown file write, sidecar file write.  On success returns the battle
card text and the persisted sidecar value. -/
def writer_attempt (o : Oracles) (state : AgentState) (prompt : String) :
    Except String (String × Json) :=
  match o.llmWriter prompt with
  | .error e => .error e
  | .ok battle_card =>
    match o.fileWriteMd with
    | .error e => .error e
    | .ok _ =>
      match o.fileWriteJson with
      | .error e => .error e
      | .ok _ => .ok (battle_card, raw_data state)

/-- `writer_node` (bt_card.py lines 306-449).  The formatting section runs
before the try-block, so its `AttributeError`s propagate (overall `.error`
result = the stage raises).  The try-block's failures are converted to the
error-banner report; either way the returned dict carries `final_report`
and `loop_count = count + 1`.  Second component: the sidecar value actually
persisted (`none` when the try-block failed before completing the JSON
dump). -/
def writer_node (o : Oracles) (state : AgentState) :
    Except String (StateUpdate × Option Json) :=
  match format_competitors state.competitors with
  | .error e => .error e
  | .ok competitors_text =>
    match format_pricing state.pricing_info with
    | .error e => .error e
    | .ok pricing_text =>
      match format_news state.news_headlines with
      | .error e => .error e
      | .ok news_text =>
        let prompt := writer_prompt state.company_name state.home_url
          state.description competitors_text pricing_text news_text
        match writer_attempt o state prompt with
        | .ok (battle_card, sidecar) =>
          .ok ({ final_report := some battle_card
                 loop_count := some (state.loop_count + 1) }, some sidecar)
        | .error e =>
          .ok ({ final_report :=
                   some ("# Error Generating Battle Card\n\nError: " ++ e)
                 loop_count := some (state.loop_count + 1) }, none)

/-- One full pipeline run (the compiled LangGraph graph, bt_card.py lines
452-467) proceeds detective → pricing → news → editor, merging each node's
partial update into the state; `pipeline` below composes the stages and
`.error` means an exception escaped the writer stage.  State after the
research stage: -/
def afterResearch (o : Oracles) (s0 : AgentState) : AgentState :=
  s0.merge (research_node o s0)

/-- State after the pricing stage. -/
def afterPricing (o : Oracles) (s0 : AgentState) : AgentState :=
  (afterResearch o s0).merge (pricing_node o (afterResearch o s0)).1

/-- State after the news stage. -/
def afterNews (o : Oracles) (s0 : AgentState) : AgentState :=
  (afterPricing o s0).merge (news_node o (afterPricing o s0)).1

/-- The writer (editor) stage and final merge. -/
def pipeline (o : Oracles) (s0 : AgentState) : Except String AgentState :=
  match writer_node o (afterNews o s0) with
  | .ok (upd, _) => .ok ((afterNews o s0).merge upd)
  | .error e => .error e

/-- Spec-side decoder for the sidecar file: re-parsing the persisted JSON
object and reading back the six recorded fields. -/
def decode_raw_data (j : Json) :
    Option (String × String × String × List Json × List Json × List Json) :=
  match j with
  | .obj [("company_name", .str cn), ("website", .str w),
          ("description", .str d), ("competitors", .arr cs),
          ("pricing_info", .arr pi), ("news_headlines", .arr nh)] =>
    some (cn, w, d, cs, pi, nh)
  | _ => none

/-!
## Concrete fixtures

A fully successful oracle configuration (`oraclesOk`) used to exercise the
pipeline on concrete runs, plus variants for the failure scenarios.
-/

/-- A 150-character page text (well above the 100-character threshold). -/
def longText : String := String.mk (List.replicate 150 'a')

/-- A well-formed research extraction result. -/
def researchJson : Json :=
  .obj [("website_url", .str "https://acme.test"),
        ("description", .str "Desc"),
        ("competitors", .arr [.str "X", .str "Y"])]

/-- A well-formed pricing extraction result (a `PricingRecord`). -/
def pricingJson : Json :=
  .obj [("free_tier", .bool true),
        ("starter_plan",
         .obj [("name", .str "Pro"), ("price", .str "$9/month")]),
        ("enterprise_plan", .bool true)]

/-- A well-formed news extraction result. -/
def newsJson : Json :=
  .obj [("headlines", .arr [.obj [("title", .str "T1"), ("position", .num 1)]])]

/-- Oracles under which every stage succeeds. -/
def oraclesOk : Oracles where
  searchInvoke := .ok "SEARCH"
  urljoin := fun b r => b ++ r
  scrape := fun _ => longText
  httpGet := fun _ => .ok 200
  split := fun t => [t]
  select3 := id
  select5 := id
  llmResearch := fun _ => .ok "RJSON"
  llmPricing := fun _ => .ok "PJSON"
  llmNews := fun _ => .ok "NJSON"
  llmWriter := fun _ => .ok "REPORT"
  jsonLoads := fun s =>
    if s = "RJSON" then .ok researchJson
    else if s = "PJSON" then .ok pricingJson
    else if s = "NJSON" then .ok newsJson
    else .error "Expecting value"
  fileWriteMd := .ok ()
  fileWriteJson := .ok ()

/-- The final state of the fully successful `oraclesOk` run on "Acme". -/
def acmeFinal : AgentState :=
  { messages := []
    company_name := "Acme"
    home_url := "https://acme.test"
    description := "Desc"
    competitors := [.str "X", .str "Y"]
    pricing_info := [pricingJson]
    news_headlines := [Json.obj [("title", .str "T1"), ("position", .num 1)]]
    loop_count := 2
    final_report := "REPORT" }

/-!
## Helper lemmas
-/

lemma writer_attempt_ok {o : Oracles} {s : AgentState} {p bc : String}
    {j : Json} (h : writer_attempt o s p = .ok (bc, j)) :
    o.llmWriter p = .ok bc ∧ j = raw_data s := by
  unfold writer_attempt at h
  cases hl : o.llmWriter p <;> rw [hl] at h
  · exact absurd h (by simp)
  · cases hm : o.fileWriteMd <;> rw [hm] at h
    · exact absurd h (by simp)
    · cases hj : o.fileWriteJson <;> rw [hj] at h
      · exact absurd h (by simp)
      · simp only [Except.ok.injEq, Prod.mk.injEq] at h
        obtain ⟨h1, h2⟩ := h
        subst h1; subst h2
        exact ⟨rfl, rfl⟩

/-- Shape of a normally returned writer update: the dict carries exactly
`final_report` and `loop_count = count + 1`; the report is either the LLM
output (sidecar persisted) or the error banner (no sidecar). -/
lemma writer_node_ok_shape {o : Oracles} {s : AgentState} {upd : StateUpdate}
    {sc : Option Json} (h : writer_node o s = .ok (upd, sc)) :
    upd.home_url = none ∧ upd.description = none ∧ upd.competitors = none ∧
    upd.pricing_info = none ∧ upd.news_headlines = none ∧
    upd.loop_count = some (s.loop_count + 1) ∧
    ((∃ r, upd.final_report = some r ∧ sc = some (raw_data s) ∧
       ∃ p, o.llmWriter p = .ok r) ∨
     (∃ e, upd.final_report =
        some ("# Error Generating Battle Card\n\nError: " ++ e) ∧ sc = none)) := by
  unfold writer_node at h
  cases hfc : format_competitors s.competitors <;> rw [hfc] at h
  · exact absurd h (by simp)
  · rename_i ct
    cases hfp : format_pricing s.pricing_info <;> rw [hfp] at h
    · exact absurd h (by simp)
    · rename_i pt
      cases hfn : format_news s.news_headlines <;> rw [hfn] at h
      · exact absurd h (by simp)
      · rename_i nt
        simp only at h
        cases hwa : writer_attempt o s (writer_prompt s.company_name
            s.home_url s.description ct pt nt) <;> rw [hwa] at h
        · simp only [Except.ok.injEq, Prod.mk.injEq] at h
          obtain ⟨h1, h2⟩ := h
          subst h1; subst h2
          exact ⟨rfl, rfl, rfl, rfl, rfl, rfl, Or.inr ⟨_, rfl, rfl⟩⟩
        · rename_i pair
          obtain ⟨bc, j⟩ := pair
          simp only [Except.ok.injEq, Prod.mk.injEq] at h
          obtain ⟨h1, h2⟩ := h
          subst h1; subst h2
          obtain ⟨hl, hj⟩ := writer_attempt_ok hwa
          exact ⟨rfl, rfl, rfl, rfl, rfl, rfl,
                 Or.inl ⟨bc, rfl, by rw [hj], _, hl⟩⟩

lemma merge_loop_count (s : AgentState) (u : StateUpdate) :
    (s.merge u).loop_count = u.loop_count.getD s.loop_count := rfl

/-!
## Claims
-/

/-- C1 (amended): after one full successful pipeline run from the initial
state, the final `loop_count` equals 2, not 4: `research_node` and
`writer_node` each increment it by exactly 1, while `pricing_node` and
`news_node` never write the `loop_count` key at all. -/
theorem pipeline_loop_count_stages (o : Oracles) (cn : String) :
    (∀ s, pipeline o (initial_state cn) = .ok s → s.loop_count = 2) ∧
    (∀ s, (research_node o s).loop_count = some (s.loop_count + 1)) ∧
    (∀ s, (pricing_node o s).1.loop_count = none) ∧
    (∀ s, (news_node o s).1.loop_count = none) ∧
    (∀ s upd sc, writer_node o s = .ok (upd, sc) →
      upd.loop_count = some (s.loop_count + 1)) := by
  refine ⟨?_, fun s => rfl, fun s => rfl, fun s => rfl,
    fun s upd sc h => (writer_node_ok_shape h).2.2.2.2.2.1⟩
  intro s h
  unfold pipeline at h
  cases hw : writer_node o (afterNews o (initial_state cn)) <;> rw [hw] at h
  · exact absurd h (by simp)
  · rename_i pair
    obtain ⟨upd, sc⟩ := pair
    simp only [Except.ok.injEq] at h
    subst h
    rw [merge_loop_count, (writer_node_ok_shape hw).2.2.2.2.2.1]
    rfl

set_option maxRecDepth 10000 in
/-- C1 counterexample: a fully successful run (every stage productive —
website resolved, one pricing record appended, headlines extracted, report
generated) ends with `loop_count = 2`, not 4. -/
theorem pipeline_loop_count_two_not_four :
    pipeline oraclesOk (initial_state "Acme") = .ok acmeFinal ∧
    acmeFinal.loop_count = 2 ∧ acmeFinal.loop_count ≠ 4 ∧
    acmeFinal.home_url = "https://acme.test" ∧
    acmeFinal.pricing_info.length = 1 ∧
    acmeFinal.news_headlines.length = 1 ∧
    acmeFinal.final_report = "REPORT" := by
  exact ⟨rfl, rfl, by decide, rfl, rfl, rfl, rfl⟩

set_option maxRecDepth 10000 in
/-- Witness for the amended C1 theorem at a concrete successful run. -/
theorem pipeline_loop_count_stages_witness :
    acmeFinal.loop_count = 2 ∧
    (research_node oraclesOk (initial_state "Acme")).loop_count = some 1 ∧
    (pricing_node oraclesOk acmeFinal).1.loop_count = none := by
  exact ⟨(pipeline_loop_count_stages oraclesOk "Acme").1 acmeFinal rfl,
         (pipeline_loop_count_stages oraclesOk "Acme").2.1 _,
         (pipeline_loop_count_stages oraclesOk "Acme").2.2.1 _⟩

/-- C2 (amended): on an unresolved `home_url` ("" or "Not found") both
stages issue zero network calls (empty trace: no scrape, no status probe,
no retrieval, no LLM call); Pricing returns the input `pricing_info`
unchanged, but News RESETS `news_headlines` to the empty list — equal to
its input value only when that input was already empty. -/
theorem short_circuit_no_calls (o : Oracles) (s : AgentState)
    (h : s.home_url = "" ∨ s.home_url = "Not found") :
    pricing_node o s = ({ pricing_info := some s.pricing_info }, {}) ∧
    news_node o s = ({ news_headlines := some [] }, {}) := by
  obtain h | h := h <;>
    simp [pricing_node, news_node, pricing_core, news_core, h]

/-- C2 counterexample: with `home_url = ""` and a non-empty input
`news_headlines`, the News stage returns `news_headlines = []`, not the
input value — the claim's "returns news_headlines unchanged" fails. -/
theorem news_short_circuit_resets_headlines :
    (news_node oraclesOk { initial_state "Acme" with
        news_headlines := [Json.str "old"] }).1.news_headlines = some [] ∧
    ([] : List Json) ≠ [Json.str "old"] := by
  exact ⟨rfl, by simp⟩

/-- Witness for the amended C2 theorem at the initial state (whose
`home_url` is the empty string). -/
theorem short_circuit_no_calls_witness :
    pricing_node oraclesOk (initial_state "Acme") =
      ({ pricing_info := some [] }, {}) ∧
    news_node oraclesOk (initial_state "Acme") =
      ({ news_headlines := some [] }, {}) :=
  short_circuit_no_calls oraclesOk _ (Or.inl rfl)

lemma ne_empty_of_pyLen_gt {t : String} (h : pyLen t > 100) : t ≠ "" := by
  intro he
  rw [he] at h
  exact absurd h (by decide)

/-- C3 (amended): in both probe loops, if candidate 1's fetch yields an
error result that the length check rejects (for Pricing an error-marker
string of at most 100 characters, for News a failed or non-200 status
probe) and candidate 2's fetch yields text of MORE than 100 characters
(the source check is `len(text) > 100`, strict), the stage uses
candidate 2's content and never fetches candidate 3 (or 4). -/
theorem probe_first_match_wins
    (scrape : String → String) (httpGet : String → Except String Nat)
    (u1 u2 u3 u4 e t : String)
    (h1 : scrape u1 = e) (_he : pyStartswith e "Error" = true)
    (hel : pyLen e ≤ 100)
    (h2 : scrape u2 = t) (ht : pyLen t > 100)
    (hg1 : ∀ code, httpGet u1 = .ok code → code ≠ 200)
    (hg2 : httpGet u2 = .ok 200) :
    pricing_probe scrape none [u1, u2, u3] = (some t, some u2, [u1, u2]) ∧
    news_probe httpGet scrape none [u1, u2, u3, u4] =
      (some t, some u2, [u1, u2], [u2]) := by
  have hne : t ≠ "" := ne_empty_of_pyLen_gt ht
  have hkey1 : ¬(e ≠ "" ∧ pyLen e > 100) := by
    rintro ⟨-, hgt⟩
    omega
  constructor
  · simp [pricing_probe, h1, h2, hkey1, hne, ht]
  · cases hget : httpGet u1 with
    | error m => simp [news_probe, hget, hg2, h2, hne, ht]
    | ok code =>
      have hc : code ≠ 200 := hg1 code hget
      simp [news_probe, hget, hg2, h2, hne, ht, hc]

/-- A short error-marker result, as `scrape_website` returns on a non-200
status. -/
def errShort : String := "Error: Status code 404"

/-- A text of exactly 100 characters. -/
def text100 : String := String.mk (List.replicate 100 'b')

/-- Scrape oracle for the C3 counterexample: candidate 1 errors, candidate
2 returns exactly 100 characters, candidate 3 returns long text. -/
def cScrape : String → String := fun u =>
  if u = "u1" then errShort else if u = "u2" then text100 else longText

set_option maxRecDepth 10000 in
/-- C3 counterexample: candidate 1 yields an error and candidate 2 yields
text of AT LEAST 100 characters (exactly 100) — yet the probe rejects
candidate 2 (the source requires strictly more than 100) and goes on to
fetch and use candidate 3, contradicting the claim as stated. -/
theorem probe_hundred_char_boundary :
    pyStartswith (cScrape "u1") "Error" = true ∧
    pyLen (cScrape "u2") = 100 ∧
    pricing_probe cScrape none ["u1", "u2", "u3"] =
      (some longText, some "u3", ["u1", "u2", "u3"]) := by
  exact ⟨by decide, by decide, by decide⟩

/-- Scrape oracle for the C3 witness: candidate 1 errors (short marker),
later candidates return long text. -/
def wScrape : String → String := fun u =>
  if u = "u1" then errShort else longText

/-- Status oracle for the C3 witness: candidate 1's status probe raises,
later candidates return 200. -/
def wHttpGet : String → Except String Nat := fun u =>
  if u = "u1" then .error "timeout" else .ok 200

set_option maxRecDepth 10000 in
/-- Witness for the amended C3 theorem at concrete candidate lists. -/
theorem probe_first_match_wins_witness :
    pricing_probe wScrape none ["u1", "u2", "u3"] =
      (some longText, some "u2", ["u1", "u2"]) ∧
    news_probe wHttpGet wScrape none ["u1", "u2", "u3", "u4"] =
      (some longText, some "u2", ["u1", "u2"], ["u2"]) := by
  exact probe_first_match_wins wScrape wHttpGet "u1" "u2" "u3" "u4"
    errShort longText rfl (by decide) (by decide) rfl (by decide)
    (fun code hc => by simp [wHttpGet] at hc) rfl

/-- C4 (amended): the stages' write-sets are: Research writes exactly
home_url, description, competitors AND loop_count; Pricing exactly
pricing_info; News exactly news_headlines; Writer exactly final_report AND
loop_count.  All fields except `loop_count` are written by exactly one
stage, but `loop_count` is written by BOTH Research and Writer, so the
write-sets are not pairwise disjoint. -/
theorem stage_write_sets (o : Oracles) (s : AgentState) :
    (∀ f, (research_node o s).writesB f =
      ([StateField.home_url, .description, .competitors,
        .loop_count].contains f)) ∧
    (∀ f, (pricing_node o s).1.writesB f =
      ([StateField.pricing_info].contains f)) ∧
    (∀ f, (news_node o s).1.writesB f =
      ([StateField.news_headlines].contains f)) ∧
    (∀ upd sc, writer_node o s = .ok (upd, sc) →
      ∀ f, upd.writesB f =
        ([StateField.final_report, .loop_count].contains f)) := by
  refine ⟨fun f => ?_, fun f => ?_, fun f => ?_, fun upd sc h f => ?_⟩
  · cases f <;> rfl
  · cases f <;> rfl
  · cases f <;> rfl
  · obtain ⟨h1, h2, h3, h4, h5, h6, h7⟩ := writer_node_ok_shape h
    rcases h7 with ⟨r, hr, -⟩ | ⟨e, hr, -⟩ <;>
      cases f <;>
        simp [StateUpdate.writesB, h1, h2, h3, h4, h5, h6, hr]

set_option maxRecDepth 10000 in
/-- C4 counterexample: at a concrete run, `loop_count` is written both by
the Research stage and by the Writer stage — a state field written by more
than one stage, contradicting pairwise disjointness as claimed. -/
theorem loop_count_written_twice :
    (research_node oraclesOk (initial_state "Acme")).writesB
      .loop_count = true ∧
    (writer_node oraclesOk (initial_state "Acme")).toOption.map
      (fun p => p.1.writesB .loop_count) = some true := by
  exact ⟨rfl, rfl⟩

set_option maxRecDepth 10000 in
/-- Witness for the amended C4 theorem at a concrete run. -/
theorem stage_write_sets_witness :
    (research_node oraclesOk (initial_state "Acme")).writesB
      .home_url = true ∧
    (pricing_node oraclesOk (initial_state "Acme")).1.writesB
      .home_url = false ∧
    (news_node oraclesOk (initial_state "Acme")).1.writesB
      .pricing_info = false ∧
    ({ final_report := some "REPORT", loop_count := some 1 } :
      StateUpdate).writesB .loop_count = true := by
  exact ⟨(stage_write_sets oraclesOk _).1 _,
         (stage_write_sets oraclesOk _).2.1 _,
         (stage_write_sets oraclesOk _).2.2.1 _,
         (stage_write_sets oraclesOk (initial_state "Acme")).2.2.2 _
           (some (raw_data (initial_state "Acme"))) rfl _⟩

/-- Behaviour of the pricing body on a resolved `home_url` once the probe
has produced truthy text `t`. -/
lemma pricing_core_resolved (o : Oracles) (s : AgentState)
    (hcond : ¬(s.home_url = "" ∨ s.home_url = "Not found"))
    {t : String} {su : Option String} {log : List String}
    (hp : pricing_probe o.scrape none (pricing_candidates o s.home_url) =
      (some t, su, log)) (ht : ¬ t = "") :
    pricing_core o s =
      match retriever_text o.split t with
      | none => (s.pricing_info,
          { scrapes := log, retrieverCalled := true })
      | some chunks =>
        match o.llmPricing (pyJoin "\n\n---\n\n" (o.select3 chunks)) with
        | .error _ => (s.pricing_info,
            { scrapes := log, retrieverCalled := true, llmCalled := true })
        | .ok res =>
          match o.jsonLoads (strip_fence (pyStrip res)) with
          | .error _ => (s.pricing_info,
              { scrapes := log, retrieverCalled := true, llmCalled := true })
          | .ok j => (s.pricing_info ++ [j],
              { scrapes := log, retrieverCalled := true, llmCalled := true }) := by
  simp only [pricing_core]
  rw [if_neg hcond, hp]
  simp only []
  rw [if_neg ht]

/-- C5 (confirmed): with a resolved `home_url` and probe text `t`: when
retrieval returns `(None, None)` the stage returns `pricing_info`
unchanged; when the LLM call raises or its response fails JSON parsing the
stage returns `pricing_info` unchanged; when extraction succeeds the stage
appends exactly the one parsed record. -/
theorem pricing_failure_unchanged_success_appends
    (o : Oracles) (s : AgentState)
    (h1 : s.home_url ≠ "") (h2 : s.home_url ≠ "Not found")
    (t : String) (su : Option String) (log : List String)
    (hp : pricing_probe o.scrape none (pricing_candidates o s.home_url) =
      (some t, su, log))
    (ht : t ≠ "") :
    (retriever_text o.split t = none →
      (pricing_node o s).1.pricing_info = some s.pricing_info) ∧
    (∀ chunks, retriever_text o.split t = some chunks →
      (∀ e, o.llmPricing (pyJoin "\n\n---\n\n" (o.select3 chunks)) =
          .error e →
        (pricing_node o s).1.pricing_info = some s.pricing_info) ∧
      (∀ r, o.llmPricing (pyJoin "\n\n---\n\n" (o.select3 chunks)) = .ok r →
        (∀ e, o.jsonLoads (strip_fence (pyStrip r)) = .error e →
          (pricing_node o s).1.pricing_info = some s.pricing_info) ∧
        (∀ j, o.jsonLoads (strip_fence (pyStrip r)) = .ok j →
          (pricing_node o s).1.pricing_info =
            some (s.pricing_info ++ [j])))) := by
  have hcond : ¬(s.home_url = "" ∨ s.home_url = "Not found") := by
    rintro (h | h)
    · exact h1 h
    · exact h2 h
  have hbase : (pricing_node o s).1.pricing_info =
      some (pricing_core o s).1 := rfl
  have hcore := pricing_core_resolved o s hcond hp ht
  constructor
  · intro hr
    rw [hbase, hcore, hr]
  · intro chunks hr
    constructor
    · intro e hl
      rw [hbase, hcore, hr]
      simp only []
      rw [hl]
    · intro r hl
      constructor
      · intro e hj
        rw [hbase, hcore, hr]
        simp only []
        rw [hl]
        simp only []
        rw [hj]
      · intro j hj
        rw [hbase, hcore, hr]
        simp only []
        rw [hl]
        simp only []
        rw [hj]

set_option maxRecDepth 10000 in
/-- Witness for the C5 theorem: a concrete successful extraction appends
exactly the one parsed record to the empty `pricing_info`. -/
theorem pricing_failure_unchanged_success_appends_witness :
    (pricing_node oraclesOk { initial_state "Acme" with
        home_url := "https://acme.test" }).1.pricing_info =
      some [pricingJson] := by
  have h := pricing_failure_unchanged_success_appends oraclesOk
    { initial_state "Acme" with home_url := "https://acme.test" }
    (by decide) (by decide) longText (some "https://acme.test/pricing")
    ["https://acme.test/pricing"] (by decide) (by decide)
  exact ((h.2 [longText] rfl).2 "PJSON" rfl).2 pricingJson rfl

/-- The `starter_plan` value read by the writer is safe to format: either a
dict, or falsy (so `starter_plan.get` is never reached). -/
def starterOk (fields : List (String × Json)) : Prop :=
  match jsonGetD fields "starter_plan" (.obj []) with
  | .obj _ => True
  | v => v.truthy = false

/-- The writer's pricing formatting cannot raise: `pricing_info` is empty,
or its first entry is a dict whose `starter_plan` is safe. -/
def pricingWF : List Json → Prop
  | [] => True
  | .obj fields :: _ => starterOk fields
  | _ :: _ => False

/-- The writer's news formatting cannot raise: every headline entry is a
dict. -/
def newsWF (l : List Json) : Prop := ∀ x ∈ l, ∃ fields, x = Json.obj fields

lemma format_pricing_ok : ∀ {pi : List Json}, pricingWF pi →
    ∃ txt, format_pricing pi = .ok txt := by
  intro pi h
  cases pi with
  | nil => exact ⟨"Unknown", rfl⟩
  | cons head rest =>
    cases head with
    | obj fields =>
      have hst : starterOk fields := h
      unfold starterOk at hst
      simp only [format_pricing]
      cases hsp : jsonGetD fields "starter_plan" (.obj []) with
      | obj sf =>
        simp only [hsp]
        by_cases htr : (Json.obj sf).truthy = true
        · simp only [htr, if_true]
          by_cases hnp : ((jsonGetD sf "name" Json.null).truthy = true ∧
              (jsonGetD sf "price" Json.null).truthy = true)
          · simp [hnp]
          · simp [hnp]
        · simp [htr]
      | null => rw [hsp] at hst; simp [hsp, hst]
      | bool b => rw [hsp] at hst; simp [hsp, hst]
      | num n => rw [hsp] at hst; simp [hsp, hst]
      | str s2 => rw [hsp] at hst; simp [hsp, hst]
      | arr elts => rw [hsp] at hst; simp [hsp, hst]
    | null => exact False.elim h
    | bool b => exact False.elim h
    | num n => exact False.elim h
    | str s2 => exact False.elim h
    | arr elts => exact False.elim h

lemma numberHeadlines_ok : ∀ (i : Nat) (l : List Json),
    (∀ x ∈ l, ∃ f, x = Json.obj f) →
    ∃ ys, numberHeadlines i l = .ok ys := by
  intro i l
  induction l generalizing i with
  | nil => exact fun _ => ⟨[], rfl⟩
  | cons x rest ih =>
    intro h
    obtain ⟨f, rfl⟩ := h x (List.mem_cons_self x rest)
    obtain ⟨ys, hys⟩ := ih (i + 1) (fun y hy => h y (List.mem_cons_of_mem _ hy))
    refine ⟨(toString (i + 1) ++ ". " ++
      (jsonGetD f "title" (.str "N/A")).pyStr) :: ys, ?_⟩
    simp [numberHeadlines, hys]

lemma format_news_ok {l : List Json} (h : newsWF l) :
    ∃ txt, format_news l = .ok txt := by
  unfold format_news
  by_cases he : l.isEmpty
  · simp [he]
  · obtain ⟨ys, hys⟩ := numberHeadlines_ok 0 l h
    simp [he, hys]

/-- The writer's competitors formatting cannot raise: every entry is a
string (so `", ".join` succeeds). -/
def competitorsWF (l : List Json) : Prop := ∀ x ∈ l, ∃ s, x = Json.str s

lemma asStr_loop_ok : ∀ (l : List Json) (acc : List String),
    (∀ x ∈ l, ∃ s, x = Json.str s) →
    ∃ strs, List.mapM.loop
      (fun c => match c with | Json.str s => some s | _ => none) l acc =
        some strs := by
  intro l
  induction l with
  | nil => exact fun acc _ => ⟨acc.reverse, rfl⟩
  | cons x rest ih =>
    intro acc h
    obtain ⟨s, rfl⟩ := h x (List.mem_cons_self x rest)
    obtain ⟨strs, hst⟩ :=
      ih (s :: acc) (fun y hy => h y (List.mem_cons_of_mem _ hy))
    exact ⟨strs, by simp [List.mapM.loop, hst]⟩

lemma format_competitors_ok {l : List Json} (h : competitorsWF l) :
    ∃ txt, format_competitors l = .ok txt := by
  unfold format_competitors
  by_cases he : l.isEmpty
  · simp [he]
  · obtain ⟨strs, hst⟩ := asStr_loop_ok l [] h
    simp only [List.mapM] at *
    simp [he, hst]

lemma errorBannerStarts (e : String) :
    pyStartswith ("# Error Generating Battle Card\n\nError: " ++ e)
      "# Error Generating Battle Card" = true := by
  unfold pyStartswith
  rw [String.data_append]
  have h : ("# Error Generating Battle Card\n\nError: ").data =
      ("# Error Generating Battle Card").data ++ ("\n\nError: ").data := by
    decide
  rw [h, List.append_assoc]
  exact List.isPrefixOf_iff_prefix.mpr (List.prefix_append _ _)

/-- C6 (amended): for every input state whose `competitors`,
`pricing_info` and `news_headlines` are well-formed (the dynamic-typing
conditions that make the writer's pre-try formatting safe: all competitors
entries strings, first pricing entry a dict with dict-or-falsy
starter_plan, every headline entry a dict), the Writer never raises: it
returns `final_report` and an incremented `loop_count`, where the report is
either the error banner (non-empty, produced when the LLM call or a file
write raises) or exactly the LLM's response (non-empty precisely when that
response is).  Without well-formedness the formatting can raise (TypeError
from `", ".join` on non-string competitors, AttributeError from `.get` on
non-dict pricing/headline entries), and on success the report can be the
empty LLM response — see the counterexample. -/
theorem writer_total_on_wellformed (o : Oracles) (s : AgentState)
    (hc : competitorsWF s.competitors)
    (hp : pricingWF s.pricing_info) (hn : newsWF s.news_headlines) :
    ∃ upd sc r, writer_node o s = .ok (upd, sc) ∧
      upd.final_report = some r ∧
      upd.loop_count = some (s.loop_count + 1) ∧
      (pyStartswith r "# Error Generating Battle Card" = true ∨
        ∃ p, o.llmWriter p = .ok r) := by
  obtain ⟨ct, hct⟩ := format_competitors_ok hc
  obtain ⟨pt, hpt⟩ := format_pricing_ok hp
  obtain ⟨nt, hnt⟩ := format_news_ok hn
  have hun : writer_node o s =
      match writer_attempt o s (writer_prompt s.company_name s.home_url
        s.description ct pt nt) with
      | .ok (bc, sidecar) =>
        .ok ({ final_report := some bc
               loop_count := some (s.loop_count + 1) }, some sidecar)
      | .error e =>
        .ok ({ final_report :=
                 some ("# Error Generating Battle Card\n\nError: " ++ e)
               loop_count := some (s.loop_count + 1) }, none) := by
    unfold writer_node
    rw [hct, hpt, hnt]
  cases hwa : writer_attempt o s (writer_prompt s.company_name s.home_url
      s.description ct pt nt) with
  | error e =>
    rw [hwa] at hun
    exact ⟨_, _, _, hun, rfl, rfl, Or.inl (errorBannerStarts e)⟩
  | ok pair =>
    obtain ⟨bc, sidecar⟩ := pair
    rw [hwa] at hun
    obtain ⟨hl, -⟩ := writer_attempt_ok hwa
    exact ⟨_, _, _, hun, rfl, rfl, Or.inr ⟨_, hl⟩⟩

/-- Oracles whose writer LLM returns the empty string. -/
def oraclesEmptyReport : Oracles :=
  { oraclesOk with llmWriter := fun _ => .ok "" }

set_option maxRecDepth 10000 in
/-- C6 counterexample: (1) when `pricing_info` holds a non-dict entry (as
`pricing_node` can append, since `json.loads` output is unvalidated), the
writer's formatting runs outside its try-block and raises
`AttributeError`; (2) when `competitors` holds non-string entries (as
research's unvalidated `dat_js.get("competitors")` can store), the
`", ".join(competitors)` at line 325 — also outside the try — raises
`TypeError`; (3) even without raising, when the LLM response is the empty
string the writer returns an EMPTY `final_report` — so neither "never
raises" nor "always non-empty final_report" holds as stated. -/
theorem writer_raises_on_nondict_pricing :
    writer_node oraclesOk { initial_state "Acme" with
        pricing_info := [Json.num 5] } = .error "AttributeError" ∧
    writer_node oraclesOk { initial_state "Acme" with
        competitors := [Json.num 1, Json.num 2] } = .error "TypeError" ∧
    (writer_node oraclesEmptyReport (initial_state "Acme")).toOption.map
      (fun p => p.1.final_report) = some (some "") := by
  exact ⟨rfl, rfl, rfl⟩

set_option maxRecDepth 10000 in
/-- Witness for the amended C6 theorem at a concrete well-formed state. -/
theorem writer_total_on_wellformed_witness :
    (writer_node oraclesOk (initial_state "Acme")).toOption.isSome = true := by
  obtain ⟨upd, sc, r, h, -⟩ := writer_total_on_wellformed oraclesOk
    (initial_state "Acme")
    (fun x hx => absurd hx (by simp [initial_state]))
    trivial
    (fun x hx => absurd hx (by simp [initial_state]))
  rw [h]
  rfl

/-- C7 (confirmed): if any exception occurs inside the research try-block
(search failure, LLM invocation error, malformed JSON, non-dict JSON), the
stage returns the defaults `"Not found"` / `"Not available"` / `[]`, and in
every case (success or failure) the returned dict sets
`loop_count = count + 1`. -/
theorem research_defaults_and_increment (o : Oracles) (s : AgentState) :
    (∀ e, researchExtract o = .error e →
      research_node o s =
        { home_url := some "Not found", description := some "Not available",
          competitors := some [], loop_count := some (s.loop_count + 1) }) ∧
    (research_node o s).loop_count = some (s.loop_count + 1) := by
  constructor
  · intro e he
    unfold research_node researchTriple
    rw [he]
  · rfl

/-- Oracles whose web search raises. -/
def oraclesSearchFail : Oracles :=
  { oraclesOk with searchInvoke := .error "DuckDuckGoSearchException" }

/-- Witness for the C7 theorem at a concrete failing search. -/
theorem research_defaults_and_increment_witness :
    research_node oraclesSearchFail (initial_state "Acme") =
      { home_url := some "Not found", description := some "Not available",
        competitors := some [], loop_count := some 1 } :=
  (research_defaults_and_increment oraclesSearchFail
    (initial_state "Acme")).1 "DuckDuckGoSearchException" rfl

lemma strip_fence_of_not_fenced {x : String}
    (h : pyStartswith x "```" = false) : strip_fence x = x := by
  simp [strip_fence, h]

/-- C8 (confirmed): fence stripping is idempotent on every LLM response
with zero or one layers of triple-backtick fencing — formalised as: the
response does not start with a fence, or the result of one stripping no
longer starts with a fence (i.e. removing the single layer exposes unfenced
payload). -/
theorem strip_fence_idempotent (x : String)
    (h : pyStartswith x "```" = false ∨
      pyStartswith (strip_fence x) "```" = false) :
    strip_fence (strip_fence x) = strip_fence x := by
  obtain h | h := h
  · rw [strip_fence_of_not_fenced h, strip_fence_of_not_fenced h]
  · exact strip_fence_of_not_fenced h

/-- Witness for the C8 theorem on a concrete one-layer fenced response
(with the `json` language tag handled by the slice-and-strip branch). -/
theorem strip_fence_idempotent_witness :
    strip_fence "```json\n[1, 2]\n```" = "[1, 2]" ∧
    strip_fence (strip_fence "```json\n[1, 2]\n```") =
      strip_fence "```json\n[1, 2]\n```" := by
  exact ⟨by decide, strip_fence_idempotent _ (Or.inr (by decide))⟩

/-- C9 (confirmed): whenever the writer persists the JSON sidecar,
re-parsing it reproduces exactly the six recorded fields — company_name,
website (home_url), description, competitors, pricing_info and
news_headlines — as held in the final state. -/
theorem sidecar_roundtrip (o : Oracles) (s : AgentState)
    (upd : StateUpdate) (j : Json)
    (h : writer_node o s = .ok (upd, some j)) :
    decode_raw_data j = some (s.company_name, s.home_url, s.description,
      s.competitors, s.pricing_info, s.news_headlines) := by
  obtain ⟨-, -, -, -, -, -, hcase⟩ := writer_node_ok_shape h
  have hj : j = raw_data s := by
    rcases hcase with ⟨r, -, hsc, -⟩ | ⟨e, -, hsc⟩
    · exact Option.some.inj hsc
    · cases hsc
  subst hj
  simp [decode_raw_data, raw_data]

set_option maxRecDepth 10000 in
/-- Witness for the C9 theorem at a concrete persisted sidecar. -/
theorem sidecar_roundtrip_witness :
    decode_raw_data (raw_data (initial_state "Acme")) =
      some ("Acme", "", "", [], [], []) :=
  sidecar_roundtrip oraclesOk (initial_state "Acme")
    { final_report := some "REPORT", loop_count := some 1 }
    (raw_data (initial_state "Acme")) rfl

/-- C10 (confirmed): if the first pricing candidate's fetch returns an
error-marker string (starting with "Error") of more than 100 characters,
the probe's only content check — length greater than 100 — accepts it,
the probe stops (candidates 2 and 3 are never fetched, whatever they would
return), and `retriever_text` then rejects the error marker so the stage
returns `pricing_info` unchanged. -/
theorem long_error_marker_accepted (o : Oracles) (s : AgentState)
    (h1 : s.home_url ≠ "") (h2 : s.home_url ≠ "Not found")
    (e : String)
    (hs : o.scrape (o.urljoin (pyRstripSlash s.home_url ++ "/") "pricing") = e)
    (he : pyStartswith e "Error" = true) (hl : pyLen e > 100) :
    (pricing_node o s).2.scrapes =
      [o.urljoin (pyRstripSlash s.home_url ++ "/") "pricing"] ∧
    (pricing_node o s).1.pricing_info = some s.pricing_info := by
  have hne : e ≠ "" := ne_empty_of_pyLen_gt hl
  have hcond : ¬(s.home_url = "" ∨ s.home_url = "Not found") := by
    rintro (h | h)
    · exact h1 h
    · exact h2 h
  have hprobe : pricing_probe o.scrape none
      (pricing_candidates o s.home_url) =
      (some e, some (o.urljoin (pyRstripSlash s.home_url ++ "/") "pricing"),
       [o.urljoin (pyRstripSlash s.home_url ++ "/") "pricing"]) := by
    simp [pricing_probe, pricing_candidates, hs, hne, hl]
  have hretr : retriever_text o.split e = none := by
    simp [retriever_text, he]
  have hcore : pricing_core o s =
      (s.pricing_info,
       { scrapes := [o.urljoin (pyRstripSlash s.home_url ++ "/") "pricing"]
         retrieverCalled := true }) := by
    rw [pricing_core_resolved o s hcond hprobe hne, hretr]
  exact ⟨by rw [show (pricing_node o s).2 = (pricing_core o s).2 from rfl,
               hcore],
         by rw [show (pricing_node o s).1.pricing_info =
                 some (pricing_core o s).1 from rfl, hcore]⟩

/-- An error-marker result longer than 100 characters, as
`scrape_website` can return for a long failure reason. -/
def longError : String := "Error: " ++ String.mk (List.replicate 100 'x')

/-- Oracles whose scrape always returns the long error marker. -/
def oraclesLongError : Oracles :=
  { oraclesOk with scrape := fun _ => longError }

set_option maxRecDepth 10000 in
/-- Witness for the C10 theorem at a concrete long error marker. -/
theorem long_error_marker_accepted_witness :
    (pricing_node oraclesLongError { initial_state "Acme" with
        home_url := "https://acme.test" }).2.scrapes =
      ["https://acme.test/pricing"] ∧
    (pricing_node oraclesLongError { initial_state "Acme" with
        home_url := "https://acme.test" }).1.pricing_info = some [] := by
  exact long_error_marker_accepted oraclesLongError _ (by decide) (by decide)
    longError rfl (by decide) (by decide)
